import Mathlib

/-!
Verification of the voice shopping assistant pipeline
(session lifecycle, turn orchestration, intent classification,
action dispatch) as implemented in
`app/lib/voice-ai/voice-session.service.ts`,
`app/lib/voice-ai/vertex-assistant.service.server.ts`,
`app/routes/api.voice.process-audio.tsx` and
`app/routes/api.voice.end-session.tsx`.

Modelling conventions:
* Firestore is a sequentially accessed association list keyed by session id;
  a document `update` on a missing document is an `Except.error`, mirroring
  the rejected promise, while `set` creates the document.
* ISO-8601 timestamp strings are modelled as natural numbers (milliseconds);
  ISO strings compare lexicographically exactly as their numeric instants do.
* External collaborators (transcriber, generative model, cart lookup,
  webhooks) are inputs to the orchestrator: the transcript/confidence pair,
  the model call outcome (`Except Unit (String × Option Nat)`, `error` for a
  thrown call), and the optional cart fetch result.  Webhook dispatch has no
  effect on the session store and its errors are swallowed by the route, so
  it does not appear in the state.
* The float confidence 0.85 is kept as the integer percentage 85.
-/

/-- Lifecycle states of a voice session (`VoiceSession.status`). -/
inductive SessionStatus
  | active
  | paused
  | completed
  | abandoned
deriving DecidableEq, Repr

/-- Message roles in the conversation history. -/
inductive Role
  | user
  | assistant
deriving DecidableEq, Repr

/-- One entry of `conversationHistory` (`ConversationMessage`). -/
structure ConversationMessage where
  role : Role
  content : String
  timestamp : Nat
deriving DecidableEq, Repr

/-- `ProductContext` from vertex-assistant.service. -/
structure ProductContext where
  id : String
  title : String
  price : String
  available : Bool
  tags : List String := []
deriving DecidableEq, Repr

/-- `CartContext` from vertex-assistant.service. -/
structure CartContext where
  productId : String
  productTitle : String
  quantity : Nat
  price : String
deriving DecidableEq, Repr

/-- `AssistantContext` from vertex-assistant.service.  Absent optional
fields are `none`/`[]` (only lengths and first elements are inspected). -/
structure AssistantContext where
  customerId : Option String := none
  customerName : Option String := none
  language : Option String := none
  conversationHistory : List ConversationMessage := []
  currentProducts : List ProductContext := []
  cartItems : List CartContext := []
  funnelStage : Option String := none
deriving DecidableEq, Repr

/-- The intent union type of `AssistantResponse.intent`. -/
inductive Intent
  | product_search
  | add_to_cart
  | checkout
  | general_help
  | funnel_navigation
  | order_status
  | unknown
deriving DecidableEq, Repr

/-- The string key under which an intent is counted in
`analytics.intents` (the TypeScript union members are strings). -/
def intentName : Intent → String
  | .product_search => "product_search"
  | .add_to_cart => "add_to_cart"
  | .checkout => "checkout"
  | .general_help => "general_help"
  | .funnel_navigation => "funnel_navigation"
  | .order_status => "order_status"
  | .unknown => "unknown"

/-- A suggested action as produced by `extractActions` and consumed by
`processSuggestedActions`.  The `data` payload of each tag is inlined;
`navigate_funnel` carries both the `direction` field that `extractActions`
writes and the `stage` field that the dispatcher reads. -/
inductive SuggestedAction
  | search_products (query : String)
  | add_to_cart (productId : String)
  | navigate_to_checkout
  | navigate_funnel (direction : Option String) (stage : Option String)
  | show_orders (customerId : Option String)
  | unknownAction (tag : String)
deriving DecidableEq, Repr

/-- `AssistantResponse` from vertex-assistant.service.  `suggestedActions`
is optional in the source (the fallback reply leaves it `undefined`). -/
structure AssistantResponse where
  text : String
  intent : Intent
  confidencePct : Nat
  suggestedActions : Option (List SuggestedAction) := none
  tokensUsed : Option Nat := none
deriving DecidableEq, Repr

/-- `VoiceSession.metadata`. -/
structure SessionMetadata where
  deviceType : String
  userAgent : Option String := none
  ipAddress : Option String := none
  totalMessages : Nat
  totalDuration : Option Int := none
deriving DecidableEq, Repr

/-- `VoiceSession.analytics`. -/
structure SessionAnalytics where
  intents : List (String × Nat) := []
  productsDiscussed : List String := []
  conversionsAttempted : Nat := 0
  satisfactionScore : Option Nat := none
deriving DecidableEq, Repr

/-- The persisted `VoiceSession` document. -/
structure VoiceSession where
  sessionId : String
  customerId : Option String := none
  startTime : Nat
  endTime : Option Nat := none
  status : SessionStatus
  language : String
  conversationHistory : List ConversationMessage
  context : AssistantContext
  metadata : SessionMetadata
  analytics : SessionAnalytics
deriving DecidableEq, Repr

/-- The `voice_sessions` collection: one document per session id. -/
abbrev SessionStore := List (String × VoiceSession)

/-- Firestore document read (`getVoiceSession`): `none` when absent. -/
def getVoiceSession : SessionStore → String → Option VoiceSession
  | [], _ => none
  | p :: rest, sessionId =>
      if p.1 = sessionId then some p.2 else getVoiceSession rest sessionId

/-- Firestore document `update`: replaces the stored session for the id,
leaves everything else (including a missing document) unchanged. -/
def putSession : SessionStore → String → VoiceSession → SessionStore
  | [], _, _ => []
  | p :: rest, sessionId, s =>
      (if p.1 = sessionId then (p.1, s) else p) :: putSession rest sessionId s

/-- Firestore document `set`: overwrite if present, create otherwise. -/
def setSession (store : SessionStore) (sessionId : String) (s : VoiceSession) :
    SessionStore :=
  if (getVoiceSession store sessionId).isSome then putSession store sessionId s
  else store ++ [(sessionId, s)]

/-! ### Intent classification (`detectIntent`)

The source lowercases the utterance and the model reply and tests them
against word-boundary regular expressions.  `\b` is a transition between a
`[A-Za-z0-9_]` character and a non-word character (or the string edge); the
alternation groups below are the exact keyword sets of the source. -/

/-- JavaScript regex `\w` class. -/
def wordChar (c : Char) : Bool := c.isAlphanum || c = '_'

/-- ASCII lowercasing, as `toLowerCase` acts on the ASCII keyword sets. -/
def toLowerStr (s : String) : String := String.mk (s.data.map Char.toLower)

/-- Does keyword `kw` occur in `s` starting at index `i`, with word
boundaries on both sides (every keyword begins and ends with a word
character, so `\bkw\b` demands non-word or edge neighbours)? -/
def matchKeywordAt (s kw : List Char) (i : Nat) : Bool :=
  decide ((s.drop i).take kw.length = kw) &&
  (match (s.take i).getLast? with
   | none => true
   | some c => !(wordChar c)) &&
  (match (s.drop (i + kw.length)).head? with
   | none => true
   | some c => !(wordChar c))

/-- `s.match(/\bkw\b/) !== null` for a single literal keyword. -/
def containsWord (s : List Char) (kw : String) : Bool :=
  (List.range (s.length + 1)).any (matchKeywordAt s kw.data)

/-- `s.match(/\b(kw1|kw2|...)\b/) !== null`. -/
def matchAnyWord (s : List Char) (kws : List String) : Bool :=
  kws.any (containsWord s)

/-- Lowercased character list of a string, as `detectIntent` computes
`userInput.toLowerCase()` / `responseText.toLowerCase()`. -/
def lowChars (s : String) : List Char := (toLowerStr s).data

/-- First branch of `detectIntent`: product-search phrasing. -/
def productSearchHit (input : List Char) : Bool :=
  matchAnyWord input ["find", "search", "looking for", "show me", "need"] &&
  matchAnyWord input ["product", "item", "clothing", "shoe", "dress", "shirt"]

/-- Second branch: add-to-cart phrasing. -/
def addToCartHit (input : List Char) : Bool :=
  matchAnyWord input ["add", "put", "place"] &&
  matchAnyWord input ["cart", "bag", "basket"]

/-- Third branch: checkout phrasing. -/
def checkoutHit (input : List Char) : Bool :=
  matchAnyWord input ["checkout", "buy", "purchase", "pay", "order"]

/-- Fourth branch: order-status phrasing. -/
def orderStatusHit (input : List Char) : Bool :=
  matchAnyWord input ["order", "tracking", "delivery", "shipping", "status"] &&
  matchAnyWord input ["where", "when", "track", "status"]

/-- Utterance half of the fifth branch. -/
def funnelInputHit (input : List Char) : Bool :=
  matchAnyWord input ["next", "continue", "proceed", "back"]

/-- Reply half of the fifth branch: the source also inspects the MODEL
REPLY (`response.match(/\b(step|stage|funnel)\b/)`). -/
def funnelReplyHit (response : List Char) : Bool :=
  matchAnyWord response ["step", "stage", "funnel"]

/-- `detectIntent(userInput, responseText)` from
vertex-assistant.service.server.ts. -/
def detectIntent (userInput responseText : String) : Intent :=
  if productSearchHit (lowChars userInput) then .product_search
  else if addToCartHit (lowChars userInput) then .add_to_cart
  else if checkoutHit (lowChars userInput) then .checkout
  else if orderStatusHit (lowChars userInput) then .order_status
  else if funnelInputHit (lowChars userInput) || funnelReplyHit (lowChars responseText) then
    .funnel_navigation
  else .general_help

/-! ### Action extraction (`extractActions`) -/

/-- The character class `["']` of the search-query regex. -/
def quoteChar (c : Char) : Bool := c = Char.ofNat 34 || c = Char.ofNat 39

/-- Case-insensitive literal prefix test (the regex carries the `i` flag). -/
def startsWithCI : List Char → List Char → Bool
  | [], _ => true
  | _ :: _, [] => false
  | p :: ps, c :: cs => decide (p.toLower = c.toLower) && startsWithCI ps cs

/-- Matches `["']([^"']+)["']` at the head of `s`, returning the capture. -/
def quoteCapture : List Char → Option (List Char)
  | [] => none
  | c :: rest =>
      if quoteChar c then
        match rest.dropWhile (fun d => !(quoteChar d)) with
        | d :: _ =>
            let body := rest.takeWhile (fun d => !(quoteChar d))
            if quoteChar d && !body.isEmpty then some body else none
        | [] => none
      else none

/-- Tries `/search(?:ing)? for ["']([^"']+)["']/i` anchored at the head of
`s`.  The greedy `(?:ing)?` is tried first; if its prefix matches, the
backtracked alternative (`search` followed by the literal ` for `) cannot
match the same characters, so the two branches are exclusive. -/
def matchSearchAt (s : List Char) : Option (List Char) :=
  if startsWithCI "searching for ".data s then quoteCapture (s.drop 14)
  else if startsWithCI "search for ".data s then quoteCapture (s.drop 11)
  else none

/-- Leftmost match of the search-query regex over the whole reply text
(`responseText.match(...)`), returning the first capture group. -/
def searchQueryMatch : List Char → Option (List Char)
  | [] => none
  | c :: rest =>
      match matchSearchAt (c :: rest) with
      | some q => some q
      | none => searchQueryMatch rest

/-- `extractActions(responseText, intent, context)` from
vertex-assistant.service.server.ts: one `switch` on the intent, each case
pushing at most one action; intents without a case yield none. -/
def extractActions (responseText : String) (intent : Intent)
    (context : AssistantContext) : List SuggestedAction :=
  match intent with
  | .product_search =>
      match searchQueryMatch responseText.data with
      | some q => [.search_products (String.mk q)]
      | none => []
  | .add_to_cart =>
      match context.currentProducts with
      | p :: _ => [.add_to_cart p.id]
      | [] => []
  | .checkout => [.navigate_to_checkout]
  | .funnel_navigation => [.navigate_funnel (some "next") none]
  | .order_status => [.show_orders context.customerId]
  | _ => []

/-- The fixed apology text returned when the model call throws. -/
def fallbackReply : String :=
  "I\x27m having trouble processing that right now. Could you try asking in a different way?"

/-- `generateAssistantResponse(userInput, context)`: the outcome of the
Vertex chat call is an explicit input (`Except.error` models the thrown
call, `Except.ok (text, tokens)` a reply, with `text = ""` when the
response carried no candidates).  A thrown call is caught and replaced by
the fallback response. -/
def generateAssistantResponse (userInput : String) (context : AssistantContext)
    (modelResult : Except Unit (String × Option Nat)) : AssistantResponse :=
  match modelResult with
  | .error _ => { text := fallbackReply, intent := .unknown, confidencePct := 0 }
  | .ok (responseText, toks) =>
      { text := responseText
        intent := detectIntent userInput responseText
        confidencePct := 85
        suggestedActions := some (extractActions responseText (detectIntent userInput responseText) context)
        tokensUsed := toks }

/-! ### Session service (`voice-session.service.ts`) -/

/-- Input record of `createVoiceSession`. -/
structure CreateSessionData where
  customerId : Option String := none
  language : Option String := none
  deviceType : String
  userAgent : Option String := none
  ipAddress : Option String := none
deriving DecidableEq, Repr

/-- The fresh session value built by `createVoiceSession`; the generated id
and the clock reading are explicit parameters. -/
def createVoiceSession (data : CreateSessionData) (sessionId : String)
    (now : Nat) : VoiceSession :=
  { sessionId := sessionId
    customerId := data.customerId
    startTime := now
    endTime := none
    status := .active
    language := data.language.getD "en-US"
    conversationHistory := []
    context :=
      { customerId := data.customerId
        language := some (data.language.getD "en-US")
        conversationHistory := [] }
    metadata :=
      { deviceType := data.deviceType
        userAgent := data.userAgent
        ipAddress := data.ipAddress
        totalMessages := 0
        totalDuration := none }
    analytics :=
      { intents := []
        productsDiscussed := []
        conversionsAttempted := 0
        satisfactionScore := none } }

/-- `createVoiceSession` also persists the fresh document (`set`). -/
def createVoiceSessionStore (store : SessionStore) (data : CreateSessionData)
    (sessionId : String) (now : Nat) : SessionStore :=
  setSession store sessionId (createVoiceSession data sessionId now)

/-- Increment of `analytics.intents[intent]`, written as the object spread
`{...intents, [intent]: count + 1}`: an existing key keeps its position,
a new key is appended with count 1. -/
def bumpIntent (l : List (String × Nat)) (k : String) : List (String × Nat) :=
  if l.any (fun p => p.1 = k) then
    l.map (fun p => if p.1 = k then (p.1, p.2 + 1) else p)
  else l ++ [(k, 1)]

/-- The document update performed by `addMessageToSession`: append the
message, bump `metadata.totalMessages`, and bump the intent counter when an
intent is supplied. -/
def applyAddMessage (s : VoiceSession) (message : ConversationMessage)
    (intent : Option String) : VoiceSession :=
  let s1 :=
    { s with
      conversationHistory := s.conversationHistory ++ [message]
      metadata := { s.metadata with totalMessages := s.metadata.totalMessages + 1 } }
  match intent with
  | some i =>
      { s1 with analytics := { s1.analytics with intents := bumpIntent s.analytics.intents i } }
  | none => s1

/-- `addMessageToSession(sessionId, message, intent?)`: a Firestore
`update` on a missing document rejects, which the route surfaces as a
thrown error. -/
def addMessageToSession (store : SessionStore) (sessionId : String)
    (message : ConversationMessage) (intent : Option String) :
    Except String SessionStore :=
  match getVoiceSession store sessionId with
  | none => .error "No document to update"
  | some s => .ok (putSession store sessionId (applyAddMessage s message intent))

/-- The funnel-stage context update the dispatcher performs:
`updateSessionContext(sessionId, {funnelStage: action.data.stage})`, i.e.
the spread `{...session.context, funnelStage}` overwriting that one field.
Throws `Session not found` when the session is absent. -/
def updateSessionContextFunnel (store : SessionStore) (sessionId : String)
    (stage : Option String) : Except String SessionStore :=
  match getVoiceSession store sessionId with
  | none => .error "Session not found"
  | some s =>
      .ok (putSession store sessionId
        { s with context := { s.context with funnelStage := stage } })

/-- The document update performed by `endVoiceSession`: mark completed,
stamp the end time, store the duration (`Math.floor` of the millisecond
difference over 1000, i.e. flooring division), and record the satisfaction
score only when it is a truthy number (so neither absent nor 0). -/
def applyEndSession (s : VoiceSession) (satisfactionScore : Option Nat)
    (now : Nat) : VoiceSession :=
  { s with
    status := .completed
    endTime := some now
    metadata :=
      { s.metadata with totalDuration := some (Int.fdiv ((now : Int) - (s.startTime : Int)) 1000) }
    analytics :=
      if satisfactionScore.getD 0 ≠ 0 then
        { s.analytics with satisfactionScore := satisfactionScore }
      else s.analytics }

/-- `endVoiceSession(sessionId, satisfactionScore?)`: silently returns when
the session is absent, otherwise applies the completion update — note it
re-applies the update even when the session is already `completed`. -/
def endVoiceSession (store : SessionStore) (sessionId : String)
    (satisfactionScore : Option Nat) (now : Nat) : SessionStore :=
  match getVoiceSession store sessionId with
  | none => store
  | some s => putSession store sessionId (applyEndSession s satisfactionScore now)

/-- `trackProductDiscussion(sessionId, productId)`: no-op when the session
is absent or the product is already recorded, otherwise a de-duplicated
append to `analytics.productsDiscussed`. -/
def trackProductDiscussion (store : SessionStore) (sessionId productId : String) :
    SessionStore :=
  match getVoiceSession store sessionId with
  | none => store
  | some s =>
      if productId ∈ s.analytics.productsDiscussed then store
      else
        putSession store sessionId
          { s with analytics :=
              { s.analytics with
                productsDiscussed := s.analytics.productsDiscussed ++ [productId] } }

/-- `trackConversionAttempt(sessionId)`: no-op when absent, otherwise
increments `analytics.conversionsAttempted`. -/
def trackConversionAttempt (store : SessionStore) (sessionId : String) :
    SessionStore :=
  match getVoiceSession store sessionId with
  | none => store
  | some s =>
      putSession store sessionId
        { s with analytics :=
            { s.analytics with conversionsAttempted := s.analytics.conversionsAttempted + 1 } }

/-- `pauseVoiceSession(sessionId)`: an unconditional status write; the
underlying `update` rejects only when the document is missing.  No check
of the current state is performed. -/
def pauseVoiceSession (store : SessionStore) (sessionId : String) :
    Except String SessionStore :=
  match getVoiceSession store sessionId with
  | none => .error "No document to update"
  | some s => .ok (putSession store sessionId { s with status := .paused })

/-- `resumeVoiceSession(sessionId)`: likewise an unconditional status
write to `active`, with no check that the session is `paused`. -/
def resumeVoiceSession (store : SessionStore) (sessionId : String) :
    Except String SessionStore :=
  match getVoiceSession store sessionId with
  | none => .error "No document to update"
  | some s => .ok (putSession store sessionId { s with status := .active })

/-- Per-document effect of the abandonment sweep: an `active` session whose
`startTime` is older than one hour before `now` becomes `abandoned`. -/
def applySweep (now : Nat) (p : String × VoiceSession) : String × VoiceSession :=
  if p.2.status = SessionStatus.active ∧ p.2.startTime < now - 3600000 then
    (p.1, { p.2 with status := SessionStatus.abandoned })
  else p

/-- `cleanupAbandonedSessions()`: batch-update every stale active session
to `abandoned` and return how many documents matched the query. -/
def cleanupAbandonedSessions (store : SessionStore) (now : Nat) :
    SessionStore × Nat :=
  (store.map (applySweep now),
   (store.filter
      (fun p => decide (p.2.status = SessionStatus.active ∧ p.2.startTime < now - 3600000))).length)

/-! ### Route actions -/

/-- Error outcomes of the voice API routes. -/
inductive VoiceError
  | sessionNotFound
  | emptyTranscript
  | internalError (msg : String)
deriving DecidableEq, Repr

/-- The JSON success payload of `POST /api/voice/process-audio`. -/
structure TurnOutcome where
  transcript : String
  confidencePct : Nat
  responseText : String
  intent : Intent
  actions : Option (List SuggestedAction)
  tokensUsed : Option Nat
deriving DecidableEq, Repr

/-- `buildAssistantContext(session, context)` from the process-audio route:
the persisted session supplies id, language, history and funnel stage; the
cart lookup is an external collaborator whose (possibly failed or skipped)
result is the `cartFetch` input, used only when a customer id is present. -/
def buildAssistantContext (session : VoiceSession)
    (cartFetch : Option (Option String × List CartContext)) : AssistantContext :=
  let base : AssistantContext :=
    { customerId := session.customerId
      language := some session.language
      conversationHistory := session.conversationHistory
      funnelStage := session.context.funnelStage }
  match session.customerId, cartFetch with
  | some _, some (name, items) => { base with customerName := name, cartItems := items }
  | _, _ => base

/-- `processSuggestedActions(sessionId, actions, context)`: a sequential
`for` loop over the actions with a `switch` on the tag.  `add_to_cart`
tracks the product when the id is truthy, `search_products` does nothing,
`navigate_funnel` updates the session context (and THROWS when the session
is absent — there is no per-action catch, so the loop stops and the error
propagates); every other tag falls through the switch and is ignored.
Returns the store as mutated so far plus the propagated error, if any. -/
def processSuggestedActions (store : SessionStore) (sessionId : String) :
    List SuggestedAction → SessionStore × Option String
  | [] => (store, none)
  | a :: rest =>
      match a with
      | .add_to_cart productId =>
          let store' :=
            if productId ≠ "" then trackProductDiscussion store sessionId productId
            else store
          processSuggestedActions store' sessionId rest
      | .navigate_funnel _ stage =>
          match updateSessionContextFunnel store sessionId stage with
          | .ok store' => processSuggestedActions store' sessionId rest
          | .error e => (store, some e)
      | _ => processSuggestedActions store sessionId rest

/-- The `action` of `POST /api/voice/process-audio` (the turn
orchestrator), for a well-formed request.  Inputs supplied by external
collaborators: the transcription result (`transcript`, `confidencePct`),
the outcome of the Vertex chat call (`modelResult`), the optional cart
lookup (`cartFetch`), and the two clock readings used for the message
timestamps.  The n8n webhook call mutates no session state and its errors
are caught, so it is omitted.  Returns the store as mutated by the steps
that ran, plus either the success payload or the error response. -/
def processAudioAction (store : SessionStore) (sessionId transcript : String)
    (confidencePct : Nat) (modelResult : Except Unit (String × Option Nat))
    (cartFetch : Option (Option String × List CartContext)) (t1 t2 : Nat) :
    SessionStore × Except VoiceError TurnOutcome :=
  match getVoiceSession store sessionId with
  | none => (store, .error .sessionNotFound)
  | some session =>
      if transcript = "" then (store, .error .emptyTranscript)
      else
        match addMessageToSession store sessionId
            { role := .user, content := transcript, timestamp := t1 } none with
        | .error e => (store, .error (.internalError e))
        | .ok store1 =>
            let ai := generateAssistantResponse transcript
              (buildAssistantContext session cartFetch) modelResult
            match addMessageToSession store1 sessionId
                { role := .assistant, content := ai.text, timestamp := t2 }
                (some (intentName ai.intent)) with
            | .error e => (store1, .error (.internalError e))
            | .ok store2 =>
                match processSuggestedActions store2 sessionId
                    (ai.suggestedActions.getD []) with
                | (store3, some e) => (store3, .error (.internalError e))
                | (store3, none) =>
                    let store4 :=
                      if ai.intent = Intent.add_to_cart ∨ ai.intent = Intent.checkout then
                        trackConversionAttempt store3 sessionId
                      else store3
                    (store4,
                     .ok { transcript := transcript
                           confidencePct := confidencePct
                           responseText := ai.text
                           intent := ai.intent
                           actions := ai.suggestedActions
                           tokensUsed := ai.tokensUsed })

/-- The analytics snapshot returned by `POST /api/voice/end-session`. -/
structure EndAnalytics where
  totalMessages : Nat
  intents : List (String × Nat)
  productsDiscussed : List String
  conversionsAttempted : Nat
deriving DecidableEq, Repr

/-- The `action` of `POST /api/voice/end-session`: load the session (404
when absent), summarize the conversation (external call, failures
swallowed, no store effect), end the session, fire the webhook (failures
swallowed), and answer with the analytics of the session AS LOADED before
ending. -/
def endSessionAction (store : SessionStore) (sessionId : String)
    (satisfactionScore : Option Nat) (now : Nat) :
    SessionStore × Except VoiceError EndAnalytics :=
  match getVoiceSession store sessionId with
  | none => (store, .error .sessionNotFound)
  | some session =>
      (endVoiceSession store sessionId satisfactionScore now,
       .ok { totalMessages := session.metadata.totalMessages
             intents := session.analytics.intents
             productsDiscussed := session.analytics.productsDiscussed
             conversionsAttempted := session.analytics.conversionsAttempted })

/-! ### Derived notions and concrete fixtures -/

/-- The session fields that the action dispatcher and the conversion
tracker never touch: conversation history, message count, status. -/
def stableProj (s : VoiceSession) :
    List ConversationMessage × Nat × SessionStatus :=
  (s.conversationHistory, s.metadata.totalMessages, s.status)

/-- The history/metadata invariant of §3: the message count in the
metadata equals the length of the conversation history. -/
abbrev InvSession (s : VoiceSession) : Prop :=
  s.conversationHistory.length = s.metadata.totalMessages

/-- The invariant holds for every session a lookup can return. -/
def InvStore (store : SessionStore) : Prop :=
  ∀ sid s, getVoiceSession store sid = some s → InvSession s

/-- Creation data used by the concrete scenarios. -/
def exData : CreateSessionData := { deviceType := "web", language := some "en-US" }

/-- A freshly created `en-US` session with id `s1` at time 0. -/
def exSessionActive : VoiceSession := createVoiceSession exData "s1" 0

/-- A store holding just the fresh active session. -/
def exStoreActive : SessionStore := [("s1", exSessionActive)]

/-- The same session already in the terminal `completed` state. -/
def exSessionCompleted : VoiceSession := { exSessionActive with status := .completed }

/-- A store holding just the completed session. -/
def exStoreCompleted : SessionStore := [("s1", exSessionCompleted)]

/-- The store produced by the create-session route on an empty store. -/
def exStoreEn : SessionStore := createVoiceSessionStore [] exData "s1" 0

/-- The store after a first end-session call at t = 1000 ms. -/
def exStoreEnded : SessionStore := endVoiceSession exStoreActive "s1" none 1000

/-- The session value stored by that first end-session call. -/
def exSessionEnded : VoiceSession := applyEndSession exSessionActive none 1000

/-! ### Store lemmas -/

/-- Updating a stored document changes exactly that document. -/
theorem get_put_self {store : SessionStore} {sid : String} {t : VoiceSession}
    (h : getVoiceSession store sid = some t) (s : VoiceSession) :
    getVoiceSession (putSession store sid s) sid = some s := by
  induction store with
  | nil => simp [getVoiceSession] at h
  | cons p rest ih =>
    by_cases hk : p.1 = sid
    · simp [getVoiceSession, putSession, hk]
    · simp [getVoiceSession, putSession, hk] at h ⊢
      exact ih h

/-- Updating one document leaves every other lookup unchanged. -/
theorem get_put_ne {sid sid' : String} (h : sid' ≠ sid) (store : SessionStore)
    (s : VoiceSession) :
    getVoiceSession (putSession store sid s) sid' = getVoiceSession store sid' := by
  induction store with
  | nil => rfl
  | cons p rest ih =>
    have hne : ¬ sid = sid' := fun hh => h hh.symm
    by_cases hk : p.1 = sid
    · simp [getVoiceSession, putSession, hk, hne, ih]
    · by_cases hk' : p.1 = sid'
      · simp [getVoiceSession, putSession, hk, hk', h]
      · simp [getVoiceSession, putSession, hk, hk', ih]

/-- Updating an absent document is the identity on the store. -/
theorem put_id_of_absent {store : SessionStore} {sid : String}
    (h : getVoiceSession store sid = none) (s : VoiceSession) :
    putSession store sid s = store := by
  induction store with
  | nil => rfl
  | cons p rest ih =>
    by_cases hk : p.1 = sid
    · simp [getVoiceSession, hk] at h
    · simp only [getVoiceSession, hk, if_neg hk] at h
      simp [putSession, hk, ih h]

/-- Writing back a session with the same value of a projection `f`
preserves `f` of every lookup. -/
theorem map_proj_put {α : Type} {store : SessionStore} {sid : String}
    {s : VoiceSession} (f : VoiceSession → α)
    (h : ∀ old, getVoiceSession store sid = some old → f s = f old)
    (sid' : String) :
    (getVoiceSession (putSession store sid s) sid').map f =
      (getVoiceSession store sid').map f := by
  by_cases hq : sid' = sid
  · subst hq
    cases hg : getVoiceSession store sid' with
    | none => rw [put_id_of_absent hg, hg]
    | some old =>
        rw [get_put_self hg s]
        simp [h old hg]
  · rw [get_put_ne hq]

/-- Equal `map f` images have equally present values. -/
theorem isSome_of_map_eq {α : Type} {o1 o2 : Option VoiceSession}
    {f : VoiceSession → α} (h : o1.map f = o2.map f) :
    o1.isSome = o2.isSome := by
  cases o1 <;> cases o2 <;> simp_all

/-- `stableProj`-equal lookups have equal conversation histories. -/
theorem map_hist_of_map_stable {o1 o2 : Option VoiceSession}
    (h : o1.map stableProj = o2.map stableProj) :
    o1.map (fun x => x.conversationHistory) =
      o2.map (fun x => x.conversationHistory) := by
  cases o1 <;> cases o2 <;> simp_all [stableProj]

/-- `stableProj`-equal lookups have equal history-length/message-count
pairs. -/
theorem map_len_of_map_stable {o1 o2 : Option VoiceSession}
    (h : o1.map stableProj = o2.map stableProj) :
    o1.map (fun x => (x.conversationHistory.length, x.metadata.totalMessages)) =
      o2.map (fun x => (x.conversationHistory.length, x.metadata.totalMessages)) := by
  cases o1 <;> cases o2 <;> simp_all [stableProj]

/-- Tracking a discussed product touches no `stableProj` field of any
session. -/
theorem trackProd_proj (store : SessionStore) (sid pid : String)
    (sid' : String) :
    (getVoiceSession (trackProductDiscussion store sid pid) sid').map stableProj =
      (getVoiceSession store sid').map stableProj := by
  unfold trackProductDiscussion
  cases hg : getVoiceSession store sid with
  | none => rfl
  | some s =>
    by_cases hmem : pid ∈ s.analytics.productsDiscussed
    · simp [hmem]
    · simp only [if_neg hmem]
      refine map_proj_put stableProj (fun old hold => ?_) sid'
      rw [hold] at hg
      injection hg with hh
      subst hh
      rfl

/-- Tracking a conversion attempt touches no `stableProj` field of any
session. -/
theorem trackConv_proj (store : SessionStore) (sid : String) (sid' : String) :
    (getVoiceSession (trackConversionAttempt store sid) sid').map stableProj =
      (getVoiceSession store sid').map stableProj := by
  unfold trackConversionAttempt
  cases hg : getVoiceSession store sid with
  | none => rfl
  | some s =>
    refine map_proj_put stableProj (fun old hold => ?_) sid'
    rw [hold] at hg
    injection hg with hh
    subst hh
    rfl

/-- On an existing session the funnel-stage context update succeeds and is
the corresponding document write. -/
theorem updCtx_ok {store : SessionStore} {sid : String} {s : VoiceSession}
    (h : getVoiceSession store sid = some s) (stage : Option String) :
    updateSessionContextFunnel store sid stage =
      Except.ok (putSession store sid
        { s with context := { s.context with funnelStage := stage } }) := by
  unfold updateSessionContextFunnel
  rw [h]

/-- The funnel-stage context update touches no `stableProj` field. -/
theorem updCtx_proj {store st' : SessionStore} {sid : String}
    {stage : Option String}
    (h : updateSessionContextFunnel store sid stage = Except.ok st')
    (sid' : String) :
    (getVoiceSession st' sid').map stableProj =
      (getVoiceSession store sid').map stableProj := by
  unfold updateSessionContextFunnel at h
  cases hg : getVoiceSession store sid with
  | none => rw [hg] at h; cases h
  | some s =>
    rw [hg] at h
    injection h with hh
    subst hh
    refine map_proj_put stableProj (fun old hold => ?_) sid'
    rw [hold] at hg
    injection hg with hh2
    subst hh2
    rfl

/-- On a store that still contains the session, the dispatcher loop always
runs to completion without error and leaves every session's history,
message count and status untouched. -/
theorem dispatch_spec (acts : List SuggestedAction) :
    ∀ (store : SessionStore) (sid : String),
      (getVoiceSession store sid).isSome = true →
      (processSuggestedActions store sid acts).2 = none ∧
      ∀ sid',
        (getVoiceSession (processSuggestedActions store sid acts).1 sid').map stableProj =
          (getVoiceSession store sid').map stableProj := by
  induction acts with
  | nil =>
    intro store sid _
    exact ⟨rfl, fun _ => rfl⟩
  | cons a rest ih =>
    intro store sid h
    cases a with
    | search_products q =>
      simpa [processSuggestedActions] using ih store sid h
    | navigate_to_checkout =>
      simpa [processSuggestedActions] using ih store sid h
    | show_orders c =>
      simpa [processSuggestedActions] using ih store sid h
    | unknownAction t =>
      simpa [processSuggestedActions] using ih store sid h
    | add_to_cart pid =>
      have hproj : ∀ sid',
          (getVoiceSession
            (if pid ≠ "" then trackProductDiscussion store sid pid else store) sid').map stableProj =
            (getVoiceSession store sid').map stableProj := by
        intro sid'
        split
        · exact trackProd_proj store sid pid sid'
        · rfl
      have h' : (getVoiceSession
          (if pid ≠ "" then trackProductDiscussion store sid pid else store) sid).isSome = true := by
        rw [isSome_of_map_eq (hproj sid)]; exact h
      have hrec := ih _ sid h'
      refine ⟨?_, fun sid' => ?_⟩
      · simpa [processSuggestedActions] using hrec.1
      · have := hrec.2 sid'
        simp only [processSuggestedActions]
        exact this.trans (hproj sid')
    | navigate_funnel d stage =>
      obtain ⟨s, hs⟩ := Option.isSome_iff_exists.mp h
      have hupd := updCtx_ok hs stage
      have hproj := fun sid' => updCtx_proj hupd sid'
      have h' : (getVoiceSession
          (putSession store sid { s with context := { s.context with funnelStage := stage } }) sid).isSome = true := by
        rw [isSome_of_map_eq (hproj sid)]; exact h
      have hrec := ih _ sid h'
      refine ⟨?_, fun sid' => ?_⟩
      · simp only [processSuggestedActions, hupd]
        exact hrec.1
      · simp only [processSuggestedActions, hupd]
        exact (hrec.2 sid').trans (hproj sid')

/-- On an existing session, `addMessageToSession` is exactly the
corresponding document write. -/
theorem addMessage_eq {store : SessionStore} {sid : String} {s : VoiceSession}
    (h : getVoiceSession store sid = some s) (message : ConversationMessage)
    (intent : Option String) :
    addMessageToSession store sid message intent =
      Except.ok (putSession store sid (applyAddMessage s message intent)) := by
  unfold addMessageToSession
  rw [h]

/-- Master lemma for the turn orchestrator: on an existing session and a
non-empty transcript, `processAudioAction` always succeeds, returns the
assistant response as payload, and the stored history grows by exactly the
user turn followed by the assistant turn. -/
theorem processAudioAction_ok (store : SessionStore) (sid : String)
    (s : VoiceSession) (tr : String) (conf : Nat)
    (mres : Except Unit (String × Option Nat))
    (cart : Option (Option String × List CartContext)) (t1 t2 : Nat)
    (h : getVoiceSession store sid = some s) (htr : ¬ tr = "") :
    (processAudioAction store sid tr conf mres cart t1 t2).2 =
      Except.ok
        { transcript := tr
          confidencePct := conf
          responseText := (generateAssistantResponse tr (buildAssistantContext s cart) mres).text
          intent := (generateAssistantResponse tr (buildAssistantContext s cart) mres).intent
          actions := (generateAssistantResponse tr (buildAssistantContext s cart) mres).suggestedActions
          tokensUsed := (generateAssistantResponse tr (buildAssistantContext s cart) mres).tokensUsed } ∧
    (getVoiceSession (processAudioAction store sid tr conf mres cart t1 t2).1 sid).map
        (fun x => x.conversationHistory) =
      some (s.conversationHistory ++
        [{ role := Role.user, content := tr, timestamp := t1 },
         { role := Role.assistant,
           content := (generateAssistantResponse tr (buildAssistantContext s cart) mres).text,
           timestamp := t2 }]) := by
  have e1 := addMessage_eq h { role := Role.user, content := tr, timestamp := t1 } none
  have hg1 := get_put_self h (applyAddMessage s { role := Role.user, content := tr, timestamp := t1 } none)
  have e2 := addMessage_eq hg1
    { role := Role.assistant
      content := (generateAssistantResponse tr (buildAssistantContext s cart) mres).text
      timestamp := t2 }
    (some (intentName (generateAssistantResponse tr (buildAssistantContext s cart) mres).intent))
  have hg2 := get_put_self hg1
    (applyAddMessage (applyAddMessage s { role := Role.user, content := tr, timestamp := t1 } none)
      { role := Role.assistant
        content := (generateAssistantResponse tr (buildAssistantContext s cart) mres).text
        timestamp := t2 }
      (some (intentName (generateAssistantResponse tr (buildAssistantContext s cart) mres).intent)))
  have hdisp := dispatch_spec
    ((generateAssistantResponse tr (buildAssistantContext s cart) mres).suggestedActions.getD []) _ sid
    (by rw [hg2]; rfl)
  cases hps : processSuggestedActions
      (putSession
        (putSession store sid (applyAddMessage s { role := Role.user, content := tr, timestamp := t1 } none))
        sid
        (applyAddMessage (applyAddMessage s { role := Role.user, content := tr, timestamp := t1 } none)
          { role := Role.assistant
            content := (generateAssistantResponse tr (buildAssistantContext s cart) mres).text
            timestamp := t2 }
          (some (intentName (generateAssistantResponse tr (buildAssistantContext s cart) mres).intent))))
      sid
      ((generateAssistantResponse tr (buildAssistantContext s cart) mres).suggestedActions.getD []) with
  | mk st3 e3 =>
    rw [hps] at hdisp
    have he3 : e3 = none := hdisp.1
    subst he3
    have hmain : processAudioAction store sid tr conf mres cart t1 t2 =
        ((if (generateAssistantResponse tr (buildAssistantContext s cart) mres).intent = Intent.add_to_cart ∨
              (generateAssistantResponse tr (buildAssistantContext s cart) mres).intent = Intent.checkout then
            trackConversionAttempt st3 sid
          else st3),
         Except.ok
          { transcript := tr
            confidencePct := conf
            responseText := (generateAssistantResponse tr (buildAssistantContext s cart) mres).text
            intent := (generateAssistantResponse tr (buildAssistantContext s cart) mres).intent
            actions := (generateAssistantResponse tr (buildAssistantContext s cart) mres).suggestedActions
            tokensUsed := (generateAssistantResponse tr (buildAssistantContext s cart) mres).tokensUsed }) := by
      simp only [processAudioAction, h, if_neg htr, e1, e2, hps]
    constructor
    · rw [hmain]
    · rw [hmain]
      have hconv : (getVoiceSession
          (if (generateAssistantResponse tr (buildAssistantContext s cart) mres).intent = Intent.add_to_cart ∨
              (generateAssistantResponse tr (buildAssistantContext s cart) mres).intent = Intent.checkout then
            trackConversionAttempt st3 sid
          else st3) sid).map (fun x => x.conversationHistory) =
          (getVoiceSession st3 sid).map (fun x => x.conversationHistory) := by
        split
        · exact map_hist_of_map_stable (trackConv_proj st3 sid sid)
        · rfl
      rw [hconv, map_hist_of_map_stable (hdisp.2 sid), hg2]
      simp [applyAddMessage]

/-! ### Claim theorems -/

/-- C10: for every reply text, intent and context, a single generation
produces at most one suggested action: each `switch` branch of
`extractActions` pushes at most one action and exactly one branch runs. -/
theorem C10_extractActions_at_most_one (responseText : String) (intent : Intent)
    (context : AssistantContext) :
    (extractActions responseText intent context).length ≤ 1 := by
  cases intent with
  | product_search =>
      unfold extractActions
      cases searchQueryMatch responseText.data <;> simp
  | add_to_cart =>
      unfold extractActions
      cases context.currentProducts <;> simp
  | checkout => simp [extractActions]
  | funnel_navigation => simp [extractActions]
  | order_status => simp [extractActions]
  | general_help => simp [extractActions]
  | unknown => simp [extractActions]

/-- C4 counterexample: intent classification is NOT a pure function of the
utterance alone — with the same utterance `hello`, a model reply
containing the word `step` flips the classified intent from
`general_help` to `funnel_navigation`. -/
theorem C4_counterexample :
    detectIntent "hello" "" = Intent.general_help ∧
    detectIntent "hello" "step" = Intent.funnel_navigation ∧
    Intent.general_help ≠ Intent.funnel_navigation := by
  exact ⟨by decide, by decide, by decide⟩

/-- C4 amended: the classifier is a pure function of the utterance and of
the single reply-side predicate (whether the reply contains one of the
whole words step/stage/funnel); for replies agreeing on that predicate the
intent depends on the utterance alone, and when no keyword rule fires the
default is `general_help`. -/
theorem C4_intent_reply_dependence :
    (∀ (u r1 r2 : String),
        funnelReplyHit (lowChars r1) = funnelReplyHit (lowChars r2) →
        detectIntent u r1 = detectIntent u r2) ∧
    (∀ (u r : String),
        productSearchHit (lowChars u) = false →
        addToCartHit (lowChars u) = false →
        checkoutHit (lowChars u) = false →
        orderStatusHit (lowChars u) = false →
        funnelInputHit (lowChars u) = false →
        funnelReplyHit (lowChars r) = false →
        detectIntent u r = Intent.general_help) := by
  constructor
  · intro u r1 r2 h
    unfold detectIntent
    rw [h]
  · intro u r h1 h2 h3 h4 h5 h6
    simp [detectIntent, h1, h2, h3, h4, h5, h6]

/-- C4 witness: the amended statement at concrete inputs. -/
theorem C4_witness :
    detectIntent "hello" "the red one" = detectIntent "hello" "a blue one" ∧
    detectIntent "hello" "ok" = Intent.general_help :=
  ⟨C4_intent_reply_dependence.1 "hello" "the red one" "a blue one" (by decide),
   C4_intent_reply_dependence.2 "hello" "ok" (by decide) (by decide) (by decide)
     (by decide) (by decide) (by decide)⟩

/-- C7: on an existing session, a turn whose transcript is empty fails
with the empty-transcript error and returns the store untouched — no user
turn is appended and no counter is incremented. -/
theorem C7_empty_transcript_unchanged (store : SessionStore) (sid : String)
    (s : VoiceSession) (conf : Nat) (mres : Except Unit (String × Option Nat))
    (cart : Option (Option String × List CartContext)) (t1 t2 : Nat)
    (h : getVoiceSession store sid = some s) :
    processAudioAction store sid "" conf mres cart t1 t2 =
      (store, Except.error VoiceError.emptyTranscript) := by
  unfold processAudioAction
  rw [h]
  simp

/-- C7 witness: the theorem applied to the concrete fresh session. -/
theorem C7_witness :
    processAudioAction exStoreActive "s1" "" 90 (Except.ok ("hi", none)) none 1 2 =
      (exStoreActive, Except.error VoiceError.emptyTranscript) :=
  C7_empty_transcript_unchanged exStoreActive "s1" exSessionActive 90
    (Except.ok ("hi", none)) none 1 2 rfl

/-- C5 counterexample: dispatch does NOT always complete with failures
isolated — on a store without the session, the `navigate_funnel` handler
throws, the loop aborts, and the remaining `add_to_cart` action is never
processed. -/
theorem C5_counterexample :
    processSuggestedActions [] "s1"
        [SuggestedAction.navigate_funnel (some "next") none,
         SuggestedAction.add_to_cart "p1"] =
      ([], some "Session not found") := rfl

/-- C5 amended: the dispatcher iterates in order and ignores unknown tags,
and completes without error whenever the session exists; but handler
errors are not caught per action — a throwing `navigate_funnel` handler
(session absent) stops the loop immediately and fails the dispatch,
skipping all remaining actions (already-performed effects are kept). -/
theorem C5_dispatch_behaviour :
    (∀ (store : SessionStore) (sid : String) (acts : List SuggestedAction),
        (getVoiceSession store sid).isSome = true →
        (processSuggestedActions store sid acts).2 = none) ∧
    (∀ (store : SessionStore) (sid tag : String) (rest : List SuggestedAction),
        processSuggestedActions store sid (SuggestedAction.unknownAction tag :: rest) =
          processSuggestedActions store sid rest) ∧
    (∀ (store : SessionStore) (sid : String) (d stage : Option String)
        (rest : List SuggestedAction),
        getVoiceSession store sid = none →
        processSuggestedActions store sid (SuggestedAction.navigate_funnel d stage :: rest) =
          (store, some "Session not found")) := by
  refine ⟨fun store sid acts h => (dispatch_spec acts store sid h).1,
    fun store sid tag rest => rfl, ?_⟩
  intro store sid d stage rest h
  simp [processSuggestedActions, updateSessionContextFunnel, h]

/-- C5 witness: the amended statement at concrete inputs. -/
theorem C5_witness :
    ((processSuggestedActions exStoreActive "s1"
        [SuggestedAction.add_to_cart "p1",
         SuggestedAction.navigate_funnel (some "next") none]).2 = none) ∧
    (processSuggestedActions [] "s2" [SuggestedAction.navigate_funnel none none] =
      ([], some "Session not found")) :=
  ⟨C5_dispatch_behaviour.1 exStoreActive "s1"
      [SuggestedAction.add_to_cart "p1",
       SuggestedAction.navigate_funnel (some "next") none] rfl,
   C5_dispatch_behaviour.2.2 [] "s2" none none [] rfl⟩

/-- C6: when the Vertex chat call throws, the turn still succeeds: the
payload carries the fixed apology text, intent `unknown` and no suggested
actions (`suggestedActions` is left undefined, which every consumer treats
as the empty list and the dispatcher receives as `[]`), and the stored
history ends with the user's transcript followed by the fallback reply. -/
theorem C6_model_failure_fallback (store : SessionStore) (sid : String)
    (s : VoiceSession) (tr : String) (conf : Nat)
    (cart : Option (Option String × List CartContext)) (t1 t2 : Nat)
    (h : getVoiceSession store sid = some s) (htr : ¬ tr = "") :
    ((processAudioAction store sid tr conf (Except.error ()) cart t1 t2).2 =
      Except.ok
        { transcript := tr, confidencePct := conf, responseText := fallbackReply,
          intent := Intent.unknown, actions := none, tokensUsed := none }) ∧
    ((getVoiceSession (processAudioAction store sid tr conf (Except.error ()) cart t1 t2).1 sid).map
        (fun x => x.conversationHistory) =
      some (s.conversationHistory ++
        [{ role := Role.user, content := tr, timestamp := t1 },
         { role := Role.assistant, content := fallbackReply, timestamp := t2 }])) := by
  have hmain := processAudioAction_ok store sid s tr conf (Except.error ()) cart t1 t2 h htr
  simpa [generateAssistantResponse] using hmain

/-- C6 witness: the theorem at a concrete session and transcript. -/
theorem C6_witness :
    ((processAudioAction exStoreActive "s1" "hi there" 80 (Except.error ()) none 5 6).2 =
      Except.ok
        { transcript := "hi there", confidencePct := 80, responseText := fallbackReply,
          intent := Intent.unknown, actions := none, tokensUsed := none }) ∧
    ((getVoiceSession (processAudioAction exStoreActive "s1" "hi there" 80 (Except.error ()) none 5 6).1 "s1").map
        (fun x => x.conversationHistory) =
      some (exSessionActive.conversationHistory ++
        [{ role := Role.user, content := "hi there", timestamp := 5 },
         { role := Role.assistant, content := fallbackReply, timestamp := 6 }])) :=
  C6_model_failure_fallback exStoreActive "s1" exSessionActive "hi there" 80 none 5 6
    rfl (by decide)

/-- C1 counterexample: a turn processed on a COMPLETED session does not
fail with any terminal-state error — it succeeds and appends two turns to
the history, contradicting the claimed `SessionTerminal` rejection. -/
theorem C1_counterexample :
    exSessionCompleted.status = SessionStatus.completed ∧
    getVoiceSession exStoreCompleted "s1" = some exSessionCompleted ∧
    ((processAudioAction exStoreCompleted "s1" "hello" 90 (Except.ok ("hi", none)) none 1 2).2 =
      Except.ok
        { transcript := "hello", confidencePct := 90, responseText := "hi",
          intent := Intent.general_help, actions := some [], tokensUsed := none }) ∧
    ((getVoiceSession (processAudioAction exStoreCompleted "s1" "hello" 90 (Except.ok ("hi", none)) none 1 2).1 "s1").map
        (fun x => x.conversationHistory.length) = some 2) := by
  exact ⟨rfl, rfl, rfl, rfl⟩

/-- C1 amended: the orchestrator checks only that the session exists, not
its lifecycle state: on a `completed` or `abandoned` session a non-empty
transcript is processed exactly as on an active one — the call succeeds
and the stored history grows by the user turn and the assistant turn. -/
theorem C1_terminal_sessions_accept_turns (store : SessionStore) (sid : String)
    (s : VoiceSession) (tr : String) (conf : Nat)
    (mres : Except Unit (String × Option Nat))
    (cart : Option (Option String × List CartContext)) (t1 t2 : Nat)
    (h : getVoiceSession store sid = some s)
    (hterm : s.status = SessionStatus.completed ∨ s.status = SessionStatus.abandoned)
    (htr : ¬ tr = "") :
    (∃ out, (processAudioAction store sid tr conf mres cart t1 t2).2 = Except.ok out) ∧
    (getVoiceSession (processAudioAction store sid tr conf mres cart t1 t2).1 sid).map
        (fun x => x.conversationHistory.length) =
      some (s.conversationHistory.length + 2) := by
  have hmain := processAudioAction_ok store sid s tr conf mres cart t1 t2 h htr
  refine ⟨⟨_, hmain.1⟩, ?_⟩
  have hh := hmain.2
  cases hgr : getVoiceSession (processAudioAction store sid tr conf mres cart t1 t2).1 sid with
  | none => rw [hgr] at hh; cases hh
  | some x =>
      rw [hgr] at hh
      injection hh with hx
      simp [hx]

/-- C1 witness: the amended statement on the concrete completed session. -/
theorem C1_witness :
    (∃ out, (processAudioAction exStoreCompleted "s1" "hello" 90 (Except.ok ("hi", none)) none 1 2).2 =
      Except.ok out) ∧
    (getVoiceSession (processAudioAction exStoreCompleted "s1" "hello" 90 (Except.ok ("hi", none)) none 1 2).1 "s1").map
        (fun x => x.conversationHistory.length) =
      some (exSessionCompleted.conversationHistory.length + 2) :=
  C1_terminal_sessions_accept_turns exStoreCompleted "s1" exSessionCompleted "hello" 90
    (Except.ok ("hi", none)) none 1 2 rfl (Or.inl rfl) (by decide)

/-- C2 counterexample: the first end call stamps `endTime = 1000`; ending
the (now completed) session again at t = 5000 OVERWRITES the stored
`endTime`, so the second call is not change-free. -/
theorem C2_counterexample :
    ((getVoiceSession exStoreEnded "s1").map (fun s => s.status) =
      some SessionStatus.completed) ∧
    ((getVoiceSession exStoreEnded "s1").map (fun s => s.endTime) = some (some 1000)) ∧
    ((getVoiceSession (endSessionAction exStoreEnded "s1" none 5000).1 "s1").map
        (fun s => s.endTime) = some (some 5000)) := by
  exact ⟨rfl, rfl, rfl⟩

/-- C2 amended: ending an already-completed session returns without error
and yields the same analytics snapshot as the first call (history, intent
counters, products discussed, conversion count and message count are all
untouched), but it is not change-free: the stored record's `endTime` and
`metadata.totalDuration` are overwritten with values computed from the
second call's clock. -/
theorem C2_end_idempotence_weak (store : SessionStore) (sid : String)
    (s : VoiceSession) (score : Option Nat) (now : Nat)
    (h : getVoiceSession store sid = some s)
    (hc : s.status = SessionStatus.completed) :
    ((endSessionAction store sid score now).2 =
      Except.ok
        { totalMessages := s.metadata.totalMessages
          intents := s.analytics.intents
          productsDiscussed := s.analytics.productsDiscussed
          conversionsAttempted := s.analytics.conversionsAttempted }) ∧
    (getVoiceSession (endSessionAction store sid score now).1 sid =
      some (applyEndSession s score now)) ∧
    (applyEndSession s score now).status = SessionStatus.completed ∧
    (applyEndSession s score now).conversationHistory = s.conversationHistory ∧
    (applyEndSession s score now).metadata.totalMessages = s.metadata.totalMessages ∧
    (applyEndSession s score now).analytics.intents = s.analytics.intents ∧
    (applyEndSession s score now).analytics.productsDiscussed =
      s.analytics.productsDiscussed ∧
    (applyEndSession s score now).analytics.conversionsAttempted =
      s.analytics.conversionsAttempted ∧
    (applyEndSession s score now).endTime = some now := by
  refine ⟨?_, ?_, ?_, ?_, ?_, ?_, ?_, ?_, ?_⟩
  · unfold endSessionAction
    rw [h]
  · unfold endSessionAction endVoiceSession
    rw [h]
    exact get_put_self h (applyEndSession s score now)
  · rfl
  · rfl
  · rfl
  · unfold applyEndSession
    split <;> rfl
  · unfold applyEndSession
    split <;> rfl
  · unfold applyEndSession
    split <;> rfl
  · rfl

/-- C2 witness: the amended statement for a second end call at t = 5000 on
the store left by the first end call. -/
theorem C2_witness :
    ((endSessionAction exStoreEnded "s1" none 5000).2 =
      Except.ok
        { totalMessages := exSessionEnded.metadata.totalMessages
          intents := exSessionEnded.analytics.intents
          productsDiscussed := exSessionEnded.analytics.productsDiscussed
          conversionsAttempted := exSessionEnded.analytics.conversionsAttempted }) ∧
    (getVoiceSession (endSessionAction exStoreEnded "s1" none 5000).1 "s1" =
      some (applyEndSession exSessionEnded none 5000)) ∧
    (applyEndSession exSessionEnded none 5000).status = SessionStatus.completed ∧
    (applyEndSession exSessionEnded none 5000).conversationHistory =
      exSessionEnded.conversationHistory ∧
    (applyEndSession exSessionEnded none 5000).metadata.totalMessages =
      exSessionEnded.metadata.totalMessages ∧
    (applyEndSession exSessionEnded none 5000).analytics.intents =
      exSessionEnded.analytics.intents ∧
    (applyEndSession exSessionEnded none 5000).analytics.productsDiscussed =
      exSessionEnded.analytics.productsDiscussed ∧
    (applyEndSession exSessionEnded none 5000).analytics.conversionsAttempted =
      exSessionEnded.analytics.conversionsAttempted ∧
    (applyEndSession exSessionEnded none 5000).endTime = some 5000 :=
  C2_end_idempotence_weak exStoreEnded "s1" exSessionEnded none 5000 (by decide) rfl

/-- The sweep transform never changes a document's key. -/
theorem applySweep_key (now : Nat) (p : String × VoiceSession) :
    (applySweep now p).1 = p.1 := by
  unfold applySweep
  split <;> rfl

/-- Looking up a session after the sweep batch returns the swept value of
the stored session. -/
theorem get_map_sweep (store : SessionStore) (now : Nat) (sid : String) :
    getVoiceSession (store.map (applySweep now)) sid =
      (getVoiceSession store sid).map (fun s => (applySweep now (sid, s)).2) := by
  induction store with
  | nil => rfl
  | cons p rest ih =>
      obtain ⟨k, v⟩ := p
      simp only [List.map_cons, getVoiceSession, applySweep_key]
      by_cases hk : k = sid
      · subst hk
        simp
      · simp [hk, ih]

/-- C3 counterexample: `resume` on a COMPLETED session transitions it back
to `active` — the source performs no state check before the write. -/
theorem C3_counterexample :
    exSessionCompleted.status = SessionStatus.completed ∧
    (match resumeVoiceSession exStoreCompleted "s1" with
      | Except.ok st => (getVoiceSession st "s1").map (fun s => s.status)
      | Except.error _ => none) = some SessionStatus.active := by
  exact ⟨rfl, rfl⟩

/-- C3 amended: `end` always leaves the session `completed` and the sweep
leaves terminal sessions untouched (so neither ever re-enters `active`),
and `pause` always writes `paused`; but `resume` validates nothing: it
moves ANY existing session — including a completed or abandoned one — to
`active`, instead of being valid only from `paused`. -/
theorem C3_lifecycle_behaviour :
    (∀ (store : SessionStore) (sid : String) (s : VoiceSession)
        (score : Option Nat) (now : Nat),
        getVoiceSession store sid = some s →
        (getVoiceSession (endVoiceSession store sid score now) sid).map
            (fun x => x.status) = some SessionStatus.completed) ∧
    (∀ (store : SessionStore) (now : Nat) (sid : String) (s : VoiceSession),
        getVoiceSession store sid = some s →
        s.status = SessionStatus.completed ∨ s.status = SessionStatus.abandoned →
        (getVoiceSession (cleanupAbandonedSessions store now).1 sid).map
            (fun x => x.status) = some s.status) ∧
    (∀ (store : SessionStore) (sid : String) (s : VoiceSession),
        getVoiceSession store sid = some s →
        ∃ st', pauseVoiceSession store sid = Except.ok st' ∧
          (getVoiceSession st' sid).map (fun x => x.status) =
            some SessionStatus.paused) ∧
    (∀ (store : SessionStore) (sid : String) (s : VoiceSession),
        getVoiceSession store sid = some s →
        ∃ st', resumeVoiceSession store sid = Except.ok st' ∧
          (getVoiceSession st' sid).map (fun x => x.status) =
            some SessionStatus.active) := by
  refine ⟨?_, ?_, ?_, ?_⟩
  · intro store sid s score now h
    unfold endVoiceSession
    rw [h, get_put_self h (applyEndSession s score now)]
    rfl
  · intro store now sid s h hterm
    show (getVoiceSession (store.map (applySweep now)) sid).map _ = _
    rw [get_map_sweep, h]
    have hsw : applySweep now (sid, s) = (sid, s) := by
      unfold applySweep
      rw [if_neg]
      rintro ⟨ha, _⟩
      cases hterm with
      | inl hx => rw [hx] at ha; cases ha
      | inr hx => rw [hx] at ha; cases ha
    simp [hsw]
  · intro store sid s h
    refine ⟨putSession store sid { s with status := .paused }, ?_, ?_⟩
    · unfold pauseVoiceSession
      rw [h]
    · rw [get_put_self h]
      rfl
  · intro store sid s h
    refine ⟨putSession store sid { s with status := .active }, ?_, ?_⟩
    · unfold resumeVoiceSession
      rw [h]
    · rw [get_put_self h]
      rfl

/-- C3 witness: the amended statement applied to concrete stores — note
the `resume` conjunct fires on the COMPLETED session. -/
theorem C3_witness :
    ((getVoiceSession (endVoiceSession exStoreActive "s1" none 7) "s1").map
        (fun x => x.status) = some SessionStatus.completed) ∧
    ((getVoiceSession (cleanupAbandonedSessions exStoreCompleted 9999999).1 "s1").map
        (fun x => x.status) = some exSessionCompleted.status) ∧
    (∃ st', pauseVoiceSession exStoreActive "s1" = Except.ok st' ∧
      (getVoiceSession st' "s1").map (fun x => x.status) = some SessionStatus.paused) ∧
    (∃ st', resumeVoiceSession exStoreCompleted "s1" = Except.ok st' ∧
      (getVoiceSession st' "s1").map (fun x => x.status) = some SessionStatus.active) :=
  ⟨C3_lifecycle_behaviour.1 exStoreActive "s1" exSessionActive none 7 rfl,
   C3_lifecycle_behaviour.2.1 exStoreCompleted 9999999 "s1" exSessionCompleted rfl
     (Or.inl rfl),
   C3_lifecycle_behaviour.2.2.1 exStoreActive "s1" exSessionActive rfl,
   C3_lifecycle_behaviour.2.2.2 exStoreCompleted "s1" exSessionCompleted rfl⟩

/-- Appending a message preserves the history-length invariant: both the
history and the message counter grow by one (the optional intent bump does
not touch either field). -/
theorem InvSession_applyAdd {s : VoiceSession} (hs : InvSession s)
    (message : ConversationMessage) (intent : Option String) :
    InvSession (applyAddMessage s message intent) := by
  unfold applyAddMessage
  cases intent <;> simp [InvSession] at hs ⊢ <;> omega

/-- Writing back an invariant-satisfying session preserves the store-wide
invariant. -/
theorem InvStore_put {store : SessionStore} {sid : String} {v : VoiceSession}
    (hs : InvStore store) (hv : InvSession v) : InvStore (putSession store sid v) := by
  intro sid' s' hg
  by_cases hq : sid' = sid
  · subst hq
    cases hg0 : getVoiceSession store sid' with
    | none => rw [put_id_of_absent hg0, hg0] at hg; cases hg
    | some old =>
        rw [get_put_self hg0 v] at hg
        injection hg with hh
        rw [← hh]
        exact hv
  · rw [get_put_ne hq] at hg
    exact hs sid' s' hg

/-- A store transform that preserves `stableProj` of every lookup
preserves the store-wide invariant (the invariant only reads history
length and message count). -/
theorem InvStore_of_stable {store store' : SessionStore}
    (hproj : ∀ sid', (getVoiceSession store' sid').map stableProj =
      (getVoiceSession store sid').map stableProj)
    (hs : InvStore store) : InvStore store' := by
  intro sid s' hg
  have hp := hproj sid
  rw [hg] at hp
  cases hg0 : getVoiceSession store sid with
  | none => rw [hg0] at hp; cases hp
  | some old =>
      rw [hg0] at hp
      injection hp with hh
      have h1 : s'.conversationHistory = old.conversationHistory :=
        congrArg Prod.fst hh
      have h2 : s'.metadata.totalMessages = old.metadata.totalMessages :=
        congrArg (fun x => x.2.1) hh
      have hold := hs sid old hg0
      show s'.conversationHistory.length = s'.metadata.totalMessages
      rw [h1, h2]
      exact hold

/-- For a concrete store the store-wide invariant follows from the
per-entry invariant (a lookup only ever returns a stored entry). -/
theorem InvStore_of_entries :
    ∀ (store : SessionStore), (∀ p ∈ store, InvSession p.2) → InvStore store := by
  intro store
  induction store with
  | nil => intro _ sid s hg; cases hg
  | cons p rest ih =>
      intro h sid s hg
      by_cases hk : p.1 = sid
      · simp only [getVoiceSession, if_pos hk] at hg
        injection hg with hh
        rw [← hh]
        exact h p (by simp)
      · simp only [getVoiceSession, if_neg hk] at hg
        exact ih (fun q hq => h q (by simp [hq])) sid s hg

/-- C8: the invariant `conversationHistory.length = metadata.totalMessages`
holds for a freshly created session, is preserved by every successful
message append, and is preserved by the whole turn orchestrator (hence it
holds after every successful `processTurn`). -/
theorem C8_history_length_invariant :
    (∀ (data : CreateSessionData) (sid : String) (now : Nat),
        InvSession (createVoiceSession data sid now)) ∧
    (∀ (store : SessionStore) (sid : String) (message : ConversationMessage)
        (intent : Option String) (store' : SessionStore),
        InvStore store →
        addMessageToSession store sid message intent = Except.ok store' →
        InvStore store') ∧
    (∀ (store : SessionStore) (sid tr : String) (conf : Nat)
        (mres : Except Unit (String × Option Nat))
        (cart : Option (Option String × List CartContext)) (t1 t2 : Nat),
        InvStore store →
        InvStore (processAudioAction store sid tr conf mres cart t1 t2).1) := by
  refine ⟨fun data sid now => rfl, ?_, ?_⟩
  · intro store sid message intent store' hs hadd
    unfold addMessageToSession at hadd
    cases hg : getVoiceSession store sid with
    | none => rw [hg] at hadd; cases hadd
    | some s =>
        rw [hg] at hadd
        injection hadd with hh
        rw [← hh]
        exact InvStore_put hs (InvSession_applyAdd (hs sid s hg) message intent)
  · intro store sid tr conf mres cart t1 t2 hs
    unfold processAudioAction
    cases hg : getVoiceSession store sid with
    | none => exact hs
    | some s =>
        by_cases htr : tr = ""
        · simp only [if_pos htr]
          exact hs
        · have hg1 := get_put_self hg
            (applyAddMessage s { role := Role.user, content := tr, timestamp := t1 } none)
          have hg2 := get_put_self hg1
            (applyAddMessage
              (applyAddMessage s { role := Role.user, content := tr, timestamp := t1 } none)
              { role := Role.assistant
                content := (generateAssistantResponse tr (buildAssistantContext s cart) mres).text
                timestamp := t2 }
              (some (intentName (generateAssistantResponse tr (buildAssistantContext s cart) mres).intent)))
          have hs1 : InvStore (putSession store sid
              (applyAddMessage s { role := Role.user, content := tr, timestamp := t1 } none)) :=
            InvStore_put hs (InvSession_applyAdd (hs sid s hg) _ _)
          have hs2 : InvStore (putSession
              (putSession store sid
                (applyAddMessage s { role := Role.user, content := tr, timestamp := t1 } none)) sid
              (applyAddMessage
                (applyAddMessage s { role := Role.user, content := tr, timestamp := t1 } none)
                { role := Role.assistant
                  content := (generateAssistantResponse tr (buildAssistantContext s cart) mres).text
                  timestamp := t2 }
                (some (intentName (generateAssistantResponse tr (buildAssistantContext s cart) mres).intent)))) :=
            InvStore_put hs1 (InvSession_applyAdd (InvSession_applyAdd (hs sid s hg) _ _) _ _)
          have hdisp := dispatch_spec
            ((generateAssistantResponse tr (buildAssistantContext s cart) mres).suggestedActions.getD [])
            _ sid (by rw [hg2]; rfl)
          simp only [if_neg htr, addMessage_eq hg, addMessage_eq hg1]
          cases hps : processSuggestedActions
              (putSession
                (putSession store sid
                  (applyAddMessage s { role := Role.user, content := tr, timestamp := t1 } none)) sid
                (applyAddMessage
                  (applyAddMessage s { role := Role.user, content := tr, timestamp := t1 } none)
                  { role := Role.assistant
                    content := (generateAssistantResponse tr (buildAssistantContext s cart) mres).text
                    timestamp := t2 }
                  (some (intentName (generateAssistantResponse tr (buildAssistantContext s cart) mres).intent))))
              sid
              ((generateAssistantResponse tr (buildAssistantContext s cart) mres).suggestedActions.getD []) with
          | mk st3 e3 =>
              rw [hps] at hdisp
              have he3 : e3 = none := hdisp.1
              subst he3
              have hs3 : InvStore st3 := InvStore_of_stable hdisp.2 hs2
              by_cases hc : (generateAssistantResponse tr (buildAssistantContext s cart) mres).intent = Intent.add_to_cart ∨
                  (generateAssistantResponse tr (buildAssistantContext s cart) mres).intent = Intent.checkout
              · simp only [if_pos hc]
                exact InvStore_of_stable (fun sid' => trackConv_proj st3 sid sid') hs3
              · simp only [if_neg hc]
                exact hs3

/-- C8 witness: the three parts at concrete inputs. -/
theorem C8_witness :
    InvSession (createVoiceSession exData "s1" 0) ∧
    InvStore (putSession exStoreActive "s1"
      (applyAddMessage exSessionActive { role := Role.user, content := "x", timestamp := 3 } none)) ∧
    InvStore (processAudioAction exStoreActive "s1" "hello" 90 (Except.ok ("hi", none)) none 1 2).1 :=
  ⟨C8_history_length_invariant.1 exData "s1" 0,
   C8_history_length_invariant.2.1 exStoreActive "s1"
     { role := Role.user, content := "x", timestamp := 3 } none
     (putSession exStoreActive "s1"
       (applyAddMessage exSessionActive { role := Role.user, content := "x", timestamp := 3 } none))
     (InvStore_of_entries exStoreActive (by decide)) rfl,
   C8_history_length_invariant.2.2 exStoreActive "s1" "hello" 90 (Except.ok ("hi", none)) none 1 2
     (InvStore_of_entries exStoreActive (by decide))⟩

/-- C9 counterexample: with the session created in `en-US`, the utterance
"find me a red dress" does classify as `product_search`, but the run
suggests NO `search_products` action when the model reply carries no
quoted `search for "..."` phrase — the suggested-action part of the claim
does not hold for every run of the scenario. -/
theorem C9_counterexample :
    (processAudioAction exStoreEn "s1" "find me a red dress" 92
        (Except.ok ("Here are some options.", some 7)) none 1 2).2 =
      Except.ok
        { transcript := "find me a red dress", confidencePct := 92,
          responseText := "Here are some options.", intent := Intent.product_search,
          actions := some [], tokensUsed := some 7 } := rfl

/-- C9 amended: in the `en-US` scenario the utterance "find me a red
dress" always classifies as `product_search` and drives the
`product_search` analytics counter to 1; a `search_products` action is
suggested exactly when the model reply contains a quoted search phrase,
e.g. a reply containing `searching for "red dress"` yields the action with
query `red dress`. -/
theorem C9_scenario_with_query_reply :
    ((processAudioAction exStoreEn "s1" "find me a red dress" 92
        (Except.ok ("Searching for \"red dress\" now.", some 7)) none 1 2).2 =
      Except.ok
        { transcript := "find me a red dress", confidencePct := 92,
          responseText := "Searching for \"red dress\" now.",
          intent := Intent.product_search,
          actions := some [SuggestedAction.search_products "red dress"],
          tokensUsed := some 7 }) ∧
    ((getVoiceSession (processAudioAction exStoreEn "s1" "find me a red dress" 92
        (Except.ok ("Searching for \"red dress\" now.", some 7)) none 1 2).1 "s1").map
        (fun s => s.analytics.intents.lookup "product_search") = some (some 1)) := by
  exact ⟨rfl, rfl⟩
